import Mathlib

/-!
Verification development for the esp32-zigbee-common repository.

Shallow embedding of:
  * `src/board_led/src/board_led.cpp` — the WS2812B indicator driver:
    animation state machine (`set_state`, `on_blink`, `on_timeout`),
    the RMT bytes-encoder timing model, resource teardown, and the
    `apply_color` push path.
  * `src/nvs_helpers` — the per-operation open/commit/close NVS wrapper
    (`save`, `load`, `save_blob`, `load_blob`, `exists`, `erase`).

Machine integers are modelled as `Nat` with explicit bounds where they
matter; fallible platform calls are modelled by explicit result values,
and platform fault injection (open failure, enqueue failure, ...) by
boolean parameters.
-/

namespace BoardLed

/-- `BoardLed::State` from `board_led.hpp`: OFF, NOT_JOINED, PAIRING,
JOINED, ERROR. -/
inductive State where
  | OFF
  | NOT_JOINED
  | PAIRING
  | JOINED
  | ERROR
deriving DecidableEq

/-- An RGB color triple, 8-bit intensities modelled as `Nat`. -/
structure Color where
  r : Nat
  g : Nat
  b : Nat
deriving DecidableEq

-- Timing constants from board_led.cpp (microseconds).
def TIMED_STATE_US : Nat := 5 * 1000 * 1000
def BLINK_NOT_JOINED_US : Nat := 250 * 1000
def BLINK_PAIRING_US : Nat := 250 * 1000
def BLINK_ERROR_US : Nat := 100 * 1000

-- Color constants from board_led.cpp.
def COLOR_AMBER_R : Nat := 40
def COLOR_AMBER_G : Nat := 20
def COLOR_AMBER_B : Nat := 0
def COLOR_BLUE_R : Nat := 0
def COLOR_BLUE_G : Nat := 0
def COLOR_BLUE_B : Nat := 40
def COLOR_GREEN_R : Nat := 0
def COLOR_GREEN_G : Nat := 60
def COLOR_GREEN_B : Nat := 0
def COLOR_RED_R : Nat := 60
def COLOR_RED_G : Nat := 0
def COLOR_RED_B : Nat := 0

def colorAmber : Color := ⟨COLOR_AMBER_R, COLOR_AMBER_G, COLOR_AMBER_B⟩
def colorBlue : Color := ⟨COLOR_BLUE_R, COLOR_BLUE_G, COLOR_BLUE_B⟩
def colorGreen : Color := ⟨COLOR_GREEN_R, COLOR_GREEN_G, COLOR_GREEN_B⟩
def colorRed : Color := ⟨COLOR_RED_R, COLOR_RED_G, COLOR_RED_B⟩
def colorBlack : Color := ⟨0, 0, 0⟩

/-- Model of a `BoardLed` instance's state-machine-visible fields:
`m_state`, `m_blink_on`, and the two esp_timer handles.  An armed timer
is `some period_us` (periodic blink timer) or `some delay_us` (one-shot
timeout timer); a stopped timer is `none`.  `pushed` records, oldest
first, every color handed to `apply_color` (the push requests). -/
structure LedModel where
  state : State
  blink_on : Bool
  blinkTimer : Option Nat
  timeoutTimer : Option Nat
  pushed : List Color
deriving DecidableEq

/-- Field state right after the `BoardLed` constructor body
(`m_state = OFF`, `m_blink_on = false`, no timer armed, nothing pushed). -/
def initLed : LedModel :=
  { state := .OFF, blink_on := false, blinkTimer := none,
    timeoutTimer := none, pushed := [] }

/-- `BoardLed::apply_color` at the state-machine level: record the push
request.  (The channel/enqueue-failure behaviour of `apply_color` is
modelled separately below as `Rmt.apply_color`.) -/
def apply_color (m : LedModel) (r g b : Nat) : LedModel :=
  { m with pushed := m.pushed ++ [⟨r, g, b⟩] }

/-- `BoardLed::clear`: push black. -/
def clear (m : LedModel) : LedModel :=
  apply_color m 0 0 0

/-- `BoardLed::set_state`, line for line: store the new state, reset the
blink phase, stop both timers, then run the target state's entry action. -/
def set_state (m : LedModel) (s : State) : LedModel :=
  let m1 : LedModel :=
    { m with state := s, blink_on := false,
             blinkTimer := none, timeoutTimer := none }
  match s with
  | .OFF => clear m1
  | .NOT_JOINED => { m1 with blinkTimer := some BLINK_NOT_JOINED_US }
  | .PAIRING => { m1 with blinkTimer := some BLINK_PAIRING_US }
  | .JOINED =>
      let m2 := apply_color m1 COLOR_GREEN_R COLOR_GREEN_G COLOR_GREEN_B
      { m2 with timeoutTimer := some TIMED_STATE_US }
  | .ERROR =>
      { m1 with blinkTimer := some BLINK_ERROR_US,
                timeoutTimer := some TIMED_STATE_US }

/-- `BoardLed::on_blink`: toggle the phase flag first, then push the
state's color or black depending on the new flag value. -/
def on_blink (m : LedModel) : LedModel :=
  let m1 : LedModel := { m with blink_on := !m.blink_on }
  match m1.state with
  | .NOT_JOINED =>
      if m1.blink_on then
        apply_color m1 COLOR_AMBER_R COLOR_AMBER_G COLOR_AMBER_B
      else clear m1
  | .PAIRING =>
      if m1.blink_on then
        apply_color m1 COLOR_BLUE_R COLOR_BLUE_G COLOR_BLUE_B
      else clear m1
  | .ERROR =>
      if m1.blink_on then
        apply_color m1 COLOR_RED_R COLOR_RED_G COLOR_RED_B
      else clear m1
  | _ => m1

/-- `BoardLed::on_timeout`: JOINED goes to OFF, ERROR goes to PAIRING,
every other state ignores the event. -/
def on_timeout (m : LedModel) : LedModel :=
  match m.state with
  | .JOINED => set_state m .OFF
  | .ERROR => set_state m .PAIRING
  | _ => m

/-- `n` consecutive firings of the periodic blink timer. -/
def ticks (m : LedModel) : Nat → LedModel
  | 0 => m
  | n + 1 => on_blink (ticks m n)

/-- The states whose entry action arms the periodic blink timer. -/
def periodic (s : State) : Prop :=
  s = .NOT_JOINED ∨ s = .PAIRING ∨ s = .ERROR

instance (s : State) : Decidable (periodic s) := by
  unfold periodic; infer_instance

/-- The color a periodic state shows on its on-phase ticks. -/
def blinkColor : State → Color
  | .NOT_JOINED => colorAmber
  | .PAIRING => colorBlue
  | .ERROR => colorRed
  | _ => colorBlack

theorem set_state_state (m : LedModel) (s : State) :
    (set_state m s).state = s := by
  cases s <;> rfl

theorem set_state_blink_on (m : LedModel) (s : State) :
    (set_state m s).blink_on = false := by
  cases s <;> rfl

theorem on_blink_periodic (m : LedModel) (h : periodic m.state) :
    on_blink m =
      { m with blink_on := !m.blink_on,
               pushed := m.pushed ++
                 [if !m.blink_on then blinkColor m.state else colorBlack] } := by
  rcases h with h | h | h <;>
    · simp only [on_blink, h, apply_color, clear, blinkColor,
        colorAmber, colorBlue, colorRed, colorBlack]
      cases hb : m.blink_on <;> simp

theorem ticks_invariant (S : State) (hS : periodic S) (m : LedModel)
    (hstate : m.state = S) (hphase : m.blink_on = false) : ∀ n : Nat,
    (ticks m n).state = S ∧
    (ticks m n).blink_on = decide (n % 2 = 1) ∧
    (ticks m n).pushed = m.pushed ++
      (List.range n).map (fun i => if i % 2 = 0 then blinkColor S else colorBlack) := by
  intro n
  induction n with
  | zero => simp [ticks, hstate, hphase]
  | succ k ih =>
      obtain ⟨ihs, ihb, ihp⟩ := ih
      have hper : periodic (ticks m k).state := by rw [ihs]; exact hS
      constructor
      · show (on_blink (ticks m k)).state = S
        rw [on_blink_periodic _ hper]
        exact ihs
      constructor
      · show (on_blink (ticks m k)).blink_on = decide ((k + 1) % 2 = 1)
        rw [on_blink_periodic _ hper]
        simp only [ihb]
        rcases Nat.mod_two_eq_zero_or_one k with hk | hk <;>
          simp [hk, Nat.succ_mod_two_eq_one_iff, Nat.succ_mod_two_eq_zero_iff]
      · show (on_blink (ticks m k)).pushed = _
        rw [on_blink_periodic _ hper]
        simp only [ihb, ihs, ihp, List.range_succ, List.map_append, List.map_cons,
          List.map_nil, List.append_assoc]
        rcases Nat.mod_two_eq_zero_or_one k with hk | hk <;> simp [hk]

/-- The timer configuration `set_state`'s entry action leaves behind, per
target state, written from the spec's state table. -/
def specEntryTimers : State → Option Nat × Option Nat
  | .OFF => (none, none)
  | .NOT_JOINED => (some BLINK_NOT_JOINED_US, none)
  | .PAIRING => (some BLINK_PAIRING_US, none)
  | .JOINED => (none, some TIMED_STATE_US)
  | .ERROR => (some BLINK_ERROR_US, some TIMED_STATE_US)

/-- Claim C1, counterexample to the claim as stated: transitioning the
freshly constructed driver into `NOT_JOINED` and firing the blink timer
twice pushes amber on the first tick and black on the second — the claim
says the first tick pushes black and the second the state's color, and
amber differs from black. -/
theorem C1_first_tick_counterexample :
    (ticks (set_state initLed .NOT_JOINED) 2).pushed = [colorAmber, colorBlack] ∧
    colorAmber ≠ colorBlack := by
  constructor
  · rfl
  · decide

/-- Claim C1 as amended: for every transition into a periodic-tick state
`S ∈ {NOT_JOINED, PAIRING, ERROR}`, the colors pushed by the periodic
blink handler alternate strictly between `S`'s color and black, with the
FIRST tick pushing `S`'s color (the handler toggles the phase flag before
choosing) and the second pushing black. -/
theorem C1_blink_alternation (m : LedModel) (S : State) (hS : periodic S)
    (n : Nat) :
    (ticks (set_state m S) n).pushed =
      (set_state m S).pushed ++
        (List.range n).map
          (fun i => if i % 2 = 0 then blinkColor S else colorBlack) :=
  (ticks_invariant S hS (set_state m S) (set_state_state m S)
    (set_state_blink_on m S) n).2.2

/-- Claim C1 witness: the amended theorem applied at `PAIRING`, five
ticks, from the freshly constructed driver. -/
theorem C1_blink_alternation_witness :
    (ticks (set_state initLed .PAIRING) 5).pushed =
      (set_state initLed .PAIRING).pushed ++
        (List.range 5).map
          (fun i => if i % 2 = 0 then blinkColor .PAIRING else colorBlack) :=
  C1_blink_alternation initLed .PAIRING (Or.inr (Or.inl rfl)) 5

/-- Claim C2: `set_state` is unconditional for every prior model and every
target state (the same state included): the stored state becomes the
argument, the blink phase is reset to the off phase, the timers end up in
exactly the target state's entry configuration — no timer armed by an
earlier state survives — and the colors pushed by the entry action do not
depend on the prior model, so re-entering the current state restarts its
timers and phase identically to a fresh entry. -/
theorem C2_set_state_unconditional (m m' : LedModel) (s : State) :
    (set_state m s).state = s ∧
    (set_state m s).blink_on = false ∧
    ((set_state m s).blinkTimer, (set_state m s).timeoutTimer) =
      specEntryTimers s ∧
    (set_state m s).pushed.drop m.pushed.length =
      (set_state m' s).pushed.drop m'.pushed.length := by
  refine ⟨set_state_state m s, set_state_blink_on m s, ?_, ?_⟩ <;>
    cases s <;>
      simp [set_state, specEntryTimers, apply_color, clear, List.drop_left]

/-- Claim C3: entering `JOINED` pushes green exactly once, disarms the
blink timer and arms the one-shot timeout at 5 000 000 µs (5000 ms); the
timeout firing in `JOINED` moves the machine to `OFF` and pushes a black
frame.  Entering `ERROR` arms the blink timer at 100 000 µs (100 ms) and
the timeout at 5 000 000 µs; the timeout firing in `ERROR` moves the
machine to `PAIRING`.  In every other state `on_timeout` is a no-op. -/
theorem C3_timed_states (m : LedModel) :
    (set_state m .JOINED).pushed = m.pushed ++ [colorGreen] ∧
    (set_state m .JOINED).blinkTimer = none ∧
    (set_state m .JOINED).timeoutTimer = some TIMED_STATE_US ∧
    (m.state = .JOINED →
      (on_timeout m).state = .OFF ∧
      (on_timeout m).pushed = m.pushed ++ [colorBlack]) ∧
    (set_state m .ERROR).blinkTimer = some BLINK_ERROR_US ∧
    (set_state m .ERROR).timeoutTimer = some TIMED_STATE_US ∧
    (m.state = .ERROR → (on_timeout m).state = .PAIRING) ∧
    (m.state ≠ .JOINED → m.state ≠ .ERROR → on_timeout m = m) := by
  refine ⟨?_, rfl, rfl, ?_, rfl, rfl, ?_, ?_⟩
  · simp [set_state, apply_color, colorGreen]
  · intro h
    constructor
    · simp [on_timeout, h, set_state, clear, apply_color]
    · simp [on_timeout, h, set_state, clear, apply_color, colorBlack]
  · intro h
    simp [on_timeout, h, set_state]
  · intro h1 h2
    cases hm : m.state
    case JOINED => exact absurd hm h1
    case ERROR => exact absurd hm h2
    all_goals simp [on_timeout, hm]

/-- Claim C3 witness: the timeout-in-`JOINED` branch applied to the model
reached by `set_state initLed JOINED`. -/
theorem C3_timed_states_witness :
    (on_timeout (set_state initLed .JOINED)).state = .OFF ∧
    (on_timeout (set_state initLed .JOINED)).pushed =
      (set_state initLed .JOINED).pushed ++ [colorBlack] :=
  (C3_timed_states (set_state initLed .JOINED)).2.2.2.1 rfl

/-! ### Serial protocol encoder (RMT bytes encoder configuration) -/

/-- RMT clock resolution from board_led.cpp: 10 MHz, i.e. 100 ns per tick. -/
def RMT_TICK_NS : Nat := 100

/-- One RMT symbol: a first phase of `duration0` ticks at `level0`, then a
second phase of `duration1` ticks at `level1`
(`rmt_symbol_word_t` as configured by `rmt_bytes_encoder_config_t`). -/
structure RmtSymbol where
  duration0 : Nat
  level0 : Bool
  duration1 : Nat
  level1 : Bool
deriving DecidableEq

/-- The `bit0` symbol of the bytes-encoder config: 4 ticks high, 8 ticks
low. -/
def bit0_symbol : RmtSymbol := ⟨4, true, 8, false⟩

/-- The `bit1` symbol of the bytes-encoder config: 8 ticks high, 4 ticks
low. -/
def bit1_symbol : RmtSymbol := ⟨8, true, 4, false⟩

/-- The symbol the bytes encoder emits for one logical bit. -/
def encodeBit (b : Bool) : RmtSymbol :=
  if b then bit1_symbol else bit0_symbol

/-- The bits of a byte most-significant-bit first (`msb_first = 1` in the
encoder config). -/
def byteBitsMsbFirst (x : Nat) : List Bool :=
  (List.range 8).map (fun i => x.testBit (7 - i))

/-- The symbol stream the bytes encoder emits for one byte. -/
def encodeByte (x : Nat) : List RmtSymbol :=
  (byteBitsMsbFirst x).map encodeBit

/-- The byte sequence `apply_color` hands to `rmt_transmit`:
`uint8_t grb[3] = {g, r, b}` — green, red, blue wire order. -/
def wireBytes (r g b : Nat) : List Nat := [g, r, b]

/-- The full symbol stream shifted out for one color frame. -/
def encodeFrame (r g b : Nat) : List RmtSymbol :=
  List.flatten ((wireBytes r g b).map encodeByte)

/-- Nanoseconds a symbol's line is high (its high phases at 100 ns per
tick). -/
def symbolHighNs (s : RmtSymbol) : Nat :=
  (if s.level0 then s.duration0 * RMT_TICK_NS else 0) +
    (if s.level1 then s.duration1 * RMT_TICK_NS else 0)

/-- Nanoseconds a symbol's line is low. -/
def symbolLowNs (s : RmtSymbol) : Nat :=
  (if s.level0 then 0 else s.duration0 * RMT_TICK_NS) +
    (if s.level1 then 0 else s.duration1 * RMT_TICK_NS)

/-- Decode one symbol by thresholding its high-phase duration at 600 ns. -/
def decodeBit (s : RmtSymbol) : Bool :=
  decide (600 < symbolHighNs s)

/-- Reassemble a most-significant-bit-first bit list into a byte value. -/
def byteOfBits (bs : List Bool) : Nat :=
  bs.foldl (fun acc b => 2 * acc + (if b then 1 else 0)) 0

/-- Chunk a decoded bit stream into bytes, eight bits at a time. -/
def bytesOfBits : List Bool → List Nat
  | b0 :: b1 :: b2 :: b3 :: b4 :: b5 :: b6 :: b7 :: rest =>
      byteOfBits [b0, b1, b2, b3, b4, b5, b6, b7] :: bytesOfBits rest
  | _ => []

/-- Decode a waveform back into bytes by per-symbol thresholding. -/
def decodeFrame (syms : List RmtSymbol) : List Nat :=
  bytesOfBits (syms.map decodeBit)

theorem decode_encodeBit (b : Bool) : decodeBit (encodeBit b) = b := by
  cases b <;> rfl

theorem map_decode_encodeByte (x : Nat) :
    (encodeByte x).map decodeBit = byteBitsMsbFirst x := by
  have h : decodeBit ∘ encodeBit = id := funext fun b => by cases b <;> rfl
  simp [encodeByte, List.map_map, h]

theorem byteBitsMsbFirst_explicit (x : Nat) :
    byteBitsMsbFirst x =
      [x.testBit 7, x.testBit 6, x.testBit 5, x.testBit 4,
       x.testBit 3, x.testBit 2, x.testBit 1, x.testBit 0] := rfl

set_option maxRecDepth 4000 in
theorem byteOfBits_byteBits :
    ∀ x : Fin 256, byteOfBits (byteBitsMsbFirst x.val) = x.val := by decide

/-- Claim C4: `push` transmits exactly 3 bytes (24 bit symbols) in green,
red, blue wire order; bit 0 is 400 ns high then 800 ns low and bit 1 is
800 ns high then 400 ns low, both expressed at 100 ns resolution; and
decoding the waveform by thresholding each symbol's high phase at 600 ns
recovers the original three bytes in green-red-blue order. -/
theorem C4_encoder_roundtrip (r g b : Nat)
    (hr : r < 256) (hg : g < 256) (hb : b < 256) :
    symbolHighNs (encodeBit false) = 400 ∧
    symbolLowNs (encodeBit false) = 800 ∧
    symbolHighNs (encodeBit true) = 800 ∧
    symbolLowNs (encodeBit true) = 400 ∧
    (encodeFrame r g b).length = 24 ∧
    decodeFrame (encodeFrame r g b) = [g, r, b] := by
  refine ⟨rfl, rfl, rfl, rfl, ?_, ?_⟩
  · simp [encodeFrame, wireBytes, encodeByte, byteBitsMsbFirst]
  · have hmap : (encodeFrame r g b).map decodeBit =
        byteBitsMsbFirst g ++ byteBitsMsbFirst r ++ byteBitsMsbFirst b := by
      simp [encodeFrame, wireBytes, map_decode_encodeByte, List.append_assoc]
    rw [decodeFrame, hmap, byteBitsMsbFirst_explicit g,
      byteBitsMsbFirst_explicit r, byteBitsMsbFirst_explicit b]
    show byteOfBits (byteBitsMsbFirst g) ::
        byteOfBits (byteBitsMsbFirst r) ::
        byteOfBits (byteBitsMsbFirst b) :: bytesOfBits [] = [g, r, b]
    rw [byteOfBits_byteBits ⟨g, hg⟩, byteOfBits_byteBits ⟨r, hr⟩,
      byteOfBits_byteBits ⟨b, hb⟩]
    rfl

/-- Claim C4 witness: the round trip at the amber palette color
(r, g, b) = (40, 20, 0), whose wire order is [20, 40, 0]. -/
theorem C4_encoder_roundtrip_witness :
    symbolHighNs (encodeBit false) = 400 ∧
    symbolLowNs (encodeBit false) = 800 ∧
    symbolHighNs (encodeBit true) = 800 ∧
    symbolLowNs (encodeBit true) = 400 ∧
    (encodeFrame 40 20 0).length = 24 ∧
    decodeFrame (encodeFrame 40 20 0) = [20, 40, 0] :=
  C4_encoder_roundtrip 40 20 0 (by decide) (by decide) (by decide)

/-! ### Resource teardown (`BoardLed::~BoardLed`) -/

/-- The destruction calls the destructor can make. -/
inductive DtorCall where
  | blink_stop
  | blink_delete
  | timeout_stop
  | timeout_delete
  | rmt_disable
  | encoder_delete
  | channel_delete
deriving DecidableEq

/-- Which of the four owned handles are non-null. -/
structure Handles where
  rmt_chan : Bool
  bytes_enc : Bool
  blink_timer : Bool
  timeout_timer : Bool
deriving DecidableEq

/-- `BoardLed::~BoardLed`, as the sequence of destruction calls it makes:
each timer is stopped and deleted under its own null check; the RMT
resources are disabled and deleted under the channel's null check. -/
def destructorCalls (h : Handles) : List DtorCall :=
  (if h.blink_timer then [.blink_stop, .blink_delete] else []) ++
    (if h.timeout_timer then [.timeout_stop, .timeout_delete] else []) ++
      (if h.rmt_chan then [.rmt_disable, .encoder_delete, .channel_delete]
       else [])

/-- `BoardLed::BoardLed`: every allocation is wrapped in
`ESP_ERROR_CHECK`, which aborts the process on failure, so construction
either aborts (no instance exists and the destructor never runs, modelled
as `none`) or completes with all four handles non-null.  The five flags
are the success of `rmt_new_tx_channel`, `rmt_new_bytes_encoder`,
`rmt_enable`, and the two `esp_timer_create` calls, in program order. -/
def constructorHandles (chanOk encOk enableOk blinkOk timeoutOk : Bool) :
    Option Handles :=
  if chanOk && encOk && enableOk && blinkOk && timeoutOk then
    some ⟨true, true, true, true⟩
  else none

/-- Claim C5: for every instance that construction actually produces (a
failed allocation aborts before an instance exists), the destructor
deletes each of the blink timer, timeout timer, encoder and transmit
channel exactly once when its handle is non-null and never otherwise —
no destruction call on a handle that was not created, and no handle
destroyed twice. -/
theorem C5_teardown_safe (chanOk encOk enableOk blinkOk timeoutOk : Bool)
    (h : Handles)
    (hc : constructorHandles chanOk encOk enableOk blinkOk timeoutOk = some h) :
    (destructorCalls h).count .blink_delete =
      (if h.blink_timer then 1 else 0) ∧
    (destructorCalls h).count .timeout_delete =
      (if h.timeout_timer then 1 else 0) ∧
    (destructorCalls h).count .encoder_delete =
      (if h.bytes_enc then 1 else 0) ∧
    (destructorCalls h).count .channel_delete =
      (if h.rmt_chan then 1 else 0) ∧
    (destructorCalls h).count .blink_stop =
      (if h.blink_timer then 1 else 0) ∧
    (destructorCalls h).count .timeout_stop =
      (if h.timeout_timer then 1 else 0) := by
  unfold constructorHandles at hc
  by_cases hall : (chanOk && encOk && enableOk && blinkOk && timeoutOk) = true
  · rw [if_pos hall] at hc
    obtain rfl : (⟨true, true, true, true⟩ : Handles) = h :=
      Option.some.inj hc
    decide
  · rw [if_neg hall] at hc
    exact absurd hc (by simp)

/-- Claim C5 witness: the fully successful construction. -/
theorem C5_teardown_safe_witness :
    (destructorCalls ⟨true, true, true, true⟩).count .blink_delete = 1 ∧
    (destructorCalls ⟨true, true, true, true⟩).count .timeout_delete = 1 ∧
    (destructorCalls ⟨true, true, true, true⟩).count .encoder_delete = 1 ∧
    (destructorCalls ⟨true, true, true, true⟩).count .channel_delete = 1 ∧
    (destructorCalls ⟨true, true, true, true⟩).count .blink_stop = 1 ∧
    (destructorCalls ⟨true, true, true, true⟩).count .timeout_stop = 1 := by
  have h := C5_teardown_safe true true true true true ⟨true, true, true, true⟩ rfl
  simpa using h

/-! ### The push path (`BoardLed::apply_color` over the RMT channel) -/

/-- The transmit channel: whether `m_rmt_chan` is non-null, and the queue
of frames (byte lists) successfully handed to the peripheral. -/
structure RmtChannel where
  present : Bool
  queue : List (List Nat)
deriving DecidableEq

/-- `rmt_transmit`: on success the frame joins the peripheral queue and
`ESP_OK` (`true`) is returned; on enqueue failure the queue is unchanged
and an error (`false`) is returned.  `enqueueOk` injects the peripheral
failure. -/
def rmt_transmit (enqueueOk : Bool) (ch : RmtChannel) (frame : List Nat) :
    RmtChannel × Bool :=
  if enqueueOk then ({ ch with queue := ch.queue ++ [frame] }, true)
  else (ch, false)

/-- `BoardLed::apply_color`: bail out if `m_rmt_chan` is null, otherwise
call `rmt_transmit` with the GRB frame and DISCARD its result — the
function returns `void`, so its result type here carries no error
component at all. -/
def rmt_apply_color (enqueueOk : Bool) (ch : RmtChannel) (r g b : Nat) :
    RmtChannel :=
  if !ch.present then ch
  else (rmt_transmit enqueueOk ch [g, r, b]).1

/-- Claim C6: a push made before initialization (`m_rmt_chan` null) is a
defensive no-op; a peripheral enqueue failure leaves the channel exactly
as it was and — the result type being plain `RmtChannel`, as `apply_color`
returns `void` — is never propagated to the caller or the state machine;
a successful push enqueues exactly the green-red-blue frame. -/
theorem C6_push_failures_swallowed (enqueueOk : Bool) (ch : RmtChannel)
    (r g b : Nat) :
    (ch.present = false → rmt_apply_color enqueueOk ch r g b = ch) ∧
    rmt_apply_color false ch r g b = ch ∧
    (ch.present = true →
      rmt_apply_color true ch r g b =
        { ch with queue := ch.queue ++ [[g, r, b]] }) := by
  refine ⟨?_, ?_, ?_⟩
  · intro h; simp [rmt_apply_color, h]
  · cases hp : ch.present <;> simp [rmt_apply_color, hp, rmt_transmit]
  · intro h; simp [rmt_apply_color, h, rmt_transmit]

/-- Claim C6 witness: the theorem applied to an uninitialized channel and
to an initialized channel at the red palette color. -/
theorem C6_push_failures_swallowed_witness :
    (rmt_apply_color true ⟨false, []⟩ 60 0 0 = ⟨false, []⟩) ∧
    (rmt_apply_color false ⟨true, []⟩ 60 0 0 = ⟨true, []⟩) ∧
    (rmt_apply_color true ⟨true, []⟩ 60 0 0 = ⟨true, [[0, 60, 0]]⟩) :=
  ⟨(C6_push_failures_swallowed true ⟨false, []⟩ 60 0 0).1 rfl,
   (C6_push_failures_swallowed false ⟨true, []⟩ 60 0 0).2.1,
   (C6_push_failures_swallowed true ⟨true, []⟩ 60 0 0).2.2 rfl⟩

end BoardLed

namespace Nvs

/-!
Embedding of `src/nvs_helpers`.  The underlying platform storage
(ESP-IDF NVS) is modelled per its documented semantics: entries live
under a (key, type) pair, so a typed `nvs_get_<T>` succeeds only when the
key was stored with exactly type `T` and otherwise reports the key as not
found; `nvs_erase_key` is type-agnostic.  Platform fault injection (a
failing `nvs_open`, `nvs_set_*` or `nvs_commit`) is modelled by boolean
parameters, defaulting every data-dependent result to what the store
contents dictate.
-/

/-- The typed entry kinds NVS distinguishes, as used by `NvsStore`. -/
inductive NvsType where
  | U8
  | U16
  | U32
  | U64
  | I8
  | I16
  | I32
  | I64
deriving DecidableEq

/-- One stored NVS entry: a typed integer or a blob. -/
inductive Entry where
  | intE (ty : NvsType) (v : Nat)
  | blobE (bytes : List Nat)
deriving DecidableEq

abbrev Key := String

/-- The contents of one NVS namespace: an association list keyed by the
entry name (keys unique by construction of `setKey`). -/
abbrev Store := List (Key × Entry)

def lookupKey : Store → Key → Option Entry
  | [], _ => none
  | (k', e) :: rest, k => if k' = k then some e else lookupKey rest k

def setKey : Store → Key → Entry → Store
  | [], k, e => [(k, e)]
  | (k', e') :: rest, k, e =>
      if k' = k then (k, e) :: rest else (k', e') :: setKey rest k e

def removeKey : Store → Key → Store
  | [], _ => []
  | (k', e') :: rest, k =>
      if k' = k then removeKey rest k else (k', e') :: removeKey rest k

/-- Platform `nvs_get_u8/u16/.../i64`: typed lookup — succeeds only when
the key holds an integer entry of exactly the requested type. -/
def nvs_get_int (st : Store) (ty : NvsType) (k : Key) : Option Nat :=
  match lookupKey st k with
  | some (.intE ty' v) => if ty' = ty then some v else none
  | _ => none

/-- Platform `nvs_get_blob`: succeeds only when the key holds a blob
entry (with a null data pointer it reports the required size, which is
what `exists` and `load_blob`'s size query use). -/
def nvs_get_blob (st : Store) (k : Key) : Option (List Nat) :=
  match lookupKey st k with
  | some (.blobE bs) => some bs
  | _ => none

/-- Platform `nvs_set_<ty>`. -/
def nvs_set_int (st : Store) (ty : NvsType) (k : Key) (v : Nat) : Store :=
  setKey st k (.intE ty v)

/-- Platform `nvs_set_blob`. -/
def nvs_set_blob (st : Store) (k : Key) (bs : List Nat) : Store :=
  setKey st k (.blobE bs)

/-- The `esp_err_t` values these operations distinguish: `ESP_OK`,
`ESP_ERR_NVS_NOT_FOUND`, `ESP_ERR_INVALID_ARG`,
`ESP_ERR_NVS_INVALID_LENGTH`, and any other failure collapsed to
`fail`. -/
inductive EspErr where
  | ok
  | notFound
  | invalidArg
  | invalidLength
  | fail
deriving DecidableEq

/-- Handle-lifecycle events an operation performs, in order:
a successful `nvs_open`, a failed `nvs_open`, `nvs_close`,
`nvs_commit`. -/
inductive Ev where
  | openOkEv
  | openFailEv
  | closeEv
  | commitEv
deriving DecidableEq

/-- Result of a mutating operation: returned error, resulting store and
the handle-lifecycle trace. -/
structure MutOut where
  ret : EspErr
  store : Store
  trace : List Ev
deriving DecidableEq

/-- Result of `NvsStore::load`. -/
structure LoadOut where
  ret : EspErr
  val : Option Nat
  trace : List Ev
deriving DecidableEq

/-- Result of `NvsStore::load_blob`: returned error, the value of `*len`
after the call, what was written into the caller's buffer (`none` when
the buffer is untouched), and the trace. -/
structure LoadBlobOut where
  ret : EspErr
  lenOut : Nat
  bufWritten : Option (List Nat)
  trace : List Ev
deriving DecidableEq

/-- Result of `NvsStore::exists`. -/
structure ExistsOut where
  found : Bool
  trace : List Ev
deriving DecidableEq

/-- `NvsStore::save<T>` (header template): open, `nvs_set_<T>`, commit on
set success, close, return the first error. -/
def save (st : Store) (ty : NvsType) (k : Key) (v : Nat)
    (openOk setOk commitOk : Bool) : MutOut :=
  if !openOk then ⟨.fail, st, [.openFailEv]⟩
  else if !setOk then ⟨.fail, st, [.openOkEv, .closeEv]⟩
  else if !commitOk then
    ⟨.fail, nvs_set_int st ty k v, [.openOkEv, .commitEv, .closeEv]⟩
  else ⟨.ok, nvs_set_int st ty k v, [.openOkEv, .commitEv, .closeEv]⟩

/-- `NvsStore::save_blob`: reject a null data pointer or zero length
before touching storage, then open, `nvs_set_blob`, commit on set
success, close.  `dataPresent = false` models a null `data` pointer. -/
def save_blob (st : Store) (k : Key) (dataPresent : Bool)
    (bytes : List Nat) (openOk setOk commitOk : Bool) : MutOut :=
  if !dataPresent || bytes.length == 0 then ⟨.invalidArg, st, []⟩
  else if !openOk then ⟨.fail, st, [.openFailEv]⟩
  else if !setOk then ⟨.fail, st, [.openOkEv, .closeEv]⟩
  else if !commitOk then
    ⟨.fail, nvs_set_blob st k bytes, [.openOkEv, .commitEv, .closeEv]⟩
  else ⟨.ok, nvs_set_blob st k bytes, [.openOkEv, .commitEv, .closeEv]⟩

/-- `NvsStore::load<T>` (header template): open, `nvs_get_<T>`, close. -/
def load (st : Store) (ty : NvsType) (k : Key) (openOk : Bool) : LoadOut :=
  if !openOk then ⟨.fail, none, [.openFailEv]⟩
  else
    match nvs_get_int st ty k with
    | some v => ⟨.ok, some v, [.openOkEv, .closeEv]⟩
    | none => ⟨.notFound, none, [.openOkEv, .closeEv]⟩

/-- `NvsStore::load_blob`: reject null out-pointers, open, query the
required size, report `NOT_FOUND` for an absent blob, report
`ESP_ERR_NVS_INVALID_LENGTH` (writing the required size into `*len`,
buffer untouched) for a too-small buffer, otherwise read the blob into
the buffer and set `*len` to its size; close on every path past open. -/
def load_blob (st : Store) (k : Key) (dataPresent lenPresent : Bool)
    (bufLen : Nat) (openOk : Bool) : LoadBlobOut :=
  if !dataPresent || !lenPresent then ⟨.invalidArg, bufLen, none, []⟩
  else if !openOk then ⟨.fail, bufLen, none, [.openFailEv]⟩
  else
    match nvs_get_blob st k with
    | none => ⟨.notFound, bufLen, none, [.openOkEv, .closeEv]⟩
    | some bs =>
        if bufLen < bs.length then
          ⟨.invalidLength, bs.length, none, [.openOkEv, .closeEv]⟩
        else ⟨.ok, bs.length, some bs, [.openOkEv, .closeEv]⟩

/-- `NvsStore::exists`: open, then probe the key as a blob, then as u8,
u16 and u32, returning true at the first probe that reports `ESP_OK`
(the probes are read-only, so the sequential early returns of the source
collapse to this disjunction, in probe order), closing before every
return past open.  No u64 or signed probe is made. -/
def nvs_exists (st : Store) (k : Key) (openOk : Bool) : ExistsOut :=
  if !openOk then ⟨false, [.openFailEv]⟩
  else
    ⟨(nvs_get_blob st k).isSome || (nvs_get_int st .U8 k).isSome ||
       (nvs_get_int st .U16 k).isSome || (nvs_get_int st .U32 k).isSome,
     [.openOkEv, .closeEv]⟩

/-- `NvsStore::erase`: open, `nvs_erase_key` (type-agnostic;
`NOT_FOUND` for an absent key), commit after a successful erase, close. -/
def erase (st : Store) (k : Key) (openOk commitOk : Bool) : MutOut :=
  if !openOk then ⟨.fail, st, [.openFailEv]⟩
  else
    match lookupKey st k with
    | none => ⟨.notFound, st, [.openOkEv, .closeEv]⟩
    | some _ =>
        ⟨if commitOk then .ok else .fail, removeKey st k,
         [.openOkEv, .commitEv, .closeEv]⟩

/-- Claim C7, evaluation of the code at the failing input: a key saved
through `save<uint64_t>` (or any signed width, here i32) is reported
ABSENT by `exists`, even though the entry is present in the store —
`exists` only probes the blob, u8, u16 and u32 encodings, and NVS typed
lookups do not match other types.  Keys saved as u8/u16/u32 or via
`save_blob` are found, and a never-stored key is reported absent. -/
theorem C7_exists_probe_gap :
    (nvs_exists (save [] .U64 "k" 7 true true true).store "k" true).found
        = false ∧
    lookupKey (save [] .U64 "k" 7 true true true).store "k" =
      some (.intE .U64 7) ∧
    (nvs_exists (save [] .I32 "k" 7 true true true).store "k" true).found
        = false ∧
    (nvs_exists (save [] .U8 "k" 7 true true true).store "k" true).found
        = true ∧
    (nvs_exists (save [] .U16 "k" 7 true true true).store "k" true).found
        = true ∧
    (nvs_exists (save [] .U32 "k" 7 true true true).store "k" true).found
        = true ∧
    (nvs_exists (save_blob [] "k" true [1, 2] true true true).store "k"
        true).found = true ∧
    (nvs_exists ([] : Store) "k" true).found = false := by
  decide

/-- Claim C8: `load_blob` returns `NOT_FOUND` when no blob is stored
under the key; returns `ESP_ERR_NVS_INVALID_LENGTH`, writes the required
size into the length out-parameter and leaves the caller's buffer
untouched when the buffer is smaller than the stored blob; and on
success fills the buffer with the blob and sets the length out-parameter
to the blob's size. -/
theorem C8_load_blob_contract (st : Store) (k : Key) (bufLen : Nat) :
    (nvs_get_blob st k = none →
      load_blob st k true true bufLen true =
        ⟨.notFound, bufLen, none, [.openOkEv, .closeEv]⟩) ∧
    (∀ bs, nvs_get_blob st k = some bs → bufLen < bs.length →
      load_blob st k true true bufLen true =
        ⟨.invalidLength, bs.length, none, [.openOkEv, .closeEv]⟩) ∧
    (∀ bs, nvs_get_blob st k = some bs → bs.length ≤ bufLen →
      load_blob st k true true bufLen true =
        ⟨.ok, bs.length, some bs, [.openOkEv, .closeEv]⟩) := by
  refine ⟨?_, ?_, ?_⟩
  · intro h; simp [load_blob, h]
  · intro bs h hlt; simp [load_blob, h, hlt]
  · intro bs h hle; simp [load_blob, h, Nat.not_lt.mpr hle]

/-- An example namespace holding one two-byte blob. -/
def blobStoreEx : Store := [("cfg", Entry.blobE [9, 9])]

/-- Claim C8 witness: all three branches at a concrete store — a
one-byte buffer is too small for the two-byte blob (required size 2
reported, buffer untouched), a two-byte buffer succeeds, and a missing
key reports `NOT_FOUND`. -/
theorem C8_load_blob_contract_witness :
    load_blob blobStoreEx "cfg" true true 1 true =
      ⟨.invalidLength, 2, none, [.openOkEv, .closeEv]⟩ ∧
    load_blob blobStoreEx "cfg" true true 2 true =
      ⟨.ok, 2, some [9, 9], [.openOkEv, .closeEv]⟩ ∧
    load_blob blobStoreEx "other" true true 2 true =
      ⟨.notFound, 2, none, [.openOkEv, .closeEv]⟩ :=
  ⟨(C8_load_blob_contract blobStoreEx "cfg" 1).2.1 [9, 9] (by decide)
      (by decide),
   (C8_load_blob_contract blobStoreEx "cfg" 2).2.2 [9, 9] (by decide)
      (by decide),
   (C8_load_blob_contract blobStoreEx "other" 2).1 (by decide)⟩

/-- A handle-lifecycle trace is per-call well bracketed: either no
storage access at all (an argument-validation early return), a failed
open with nothing to close, or exactly one successful open whose handle
is closed exactly once, as the very last action before returning. -/
def wellFormedTrace (tr : List Ev) : Bool :=
  tr == [] || tr == [.openFailEv] ||
    (tr.head? == some .openOkEv && tr.getLast? == some .closeEv &&
     tr.count .closeEv == 1 && tr.count .openOkEv == 1 &&
     tr.count .openFailEv == 0)

/-- The trace commits strictly before its final close. -/
def commitThenClose (tr : List Ev) : Bool :=
  tr.getLast? == some .closeEv && tr.dropLast.contains .commitEv

/-- Claim C9: every operation of the store (`save`, `save_blob`, `load`,
`load_blob`, `exists`, `erase`), for every store, key, argument and
platform-fault combination, produces a well-bracketed handle trace —
whenever a handle is opened it is closed exactly once, as the last
action before returning, on every path, so no handle is ever held open
across calls — and every mutating operation that returns `ESP_OK`
committed before that close. -/
theorem C9_per_call_handle_discipline (st : Store) (ty : NvsType)
    (k : Key) (v : Nat) (dataPresent lenPresent : Bool)
    (bytes : List Nat) (bufLen : Nat) (openOk setOk commitOk : Bool) :
    wellFormedTrace (save st ty k v openOk setOk commitOk).trace = true ∧
    wellFormedTrace
      (save_blob st k dataPresent bytes openOk setOk commitOk).trace
        = true ∧
    wellFormedTrace (load st ty k openOk).trace = true ∧
    wellFormedTrace
      (load_blob st k dataPresent lenPresent bufLen openOk).trace = true ∧
    wellFormedTrace (nvs_exists st k openOk).trace = true ∧
    wellFormedTrace (erase st k openOk commitOk).trace = true ∧
    ((save st ty k v openOk setOk commitOk).ret = .ok →
      commitThenClose (save st ty k v openOk setOk commitOk).trace
        = true) ∧
    ((save_blob st k dataPresent bytes openOk setOk commitOk).ret = .ok →
      commitThenClose
        (save_blob st k dataPresent bytes openOk setOk commitOk).trace
          = true) ∧
    ((erase st k openOk commitOk).ret = .ok →
      commitThenClose (erase st k openOk commitOk).trace = true) := by
  refine ⟨?_, ?_, ?_, ?_, ?_, ?_, ?_, ?_, ?_⟩
  · cases openOk <;> cases setOk <;> cases commitOk <;> rfl
  · cases dataPresent <;> cases bytes <;> cases openOk <;> cases setOk <;>
      cases commitOk <;> rfl
  · cases openOk
    · rfl
    · cases h : nvs_get_int st ty k <;> simp [load, h, wellFormedTrace]
  · cases dataPresent
    · rfl
    · cases lenPresent
      · rfl
      · cases openOk
        · rfl
        · cases h : nvs_get_blob st k with
          | none => simp [load_blob, h, wellFormedTrace]
          | some bs =>
              rcases Nat.lt_or_ge bufLen bs.length with hlt | hge
              · simp [load_blob, h, hlt, wellFormedTrace]
              · simp [load_blob, h, Nat.not_lt.mpr hge, wellFormedTrace]
  · cases openOk <;> rfl
  · cases openOk
    · rfl
    · cases h : lookupKey st k
      · simp [erase, h, wellFormedTrace]
      · cases commitOk <;> simp [erase, h, wellFormedTrace]
  · cases openOk <;> cases setOk <;> cases commitOk <;> intro h <;>
      first
        | rfl
        | exact EspErr.noConfusion h
  · cases dataPresent <;> cases bytes <;> cases openOk <;> cases setOk <;>
      cases commitOk <;> intro h <;>
      first
        | rfl
        | exact EspErr.noConfusion h
  · cases openOk
    · intro h; exact EspErr.noConfusion h
    · cases h : lookupKey st k
      · intro hret
        simp [erase, h] at hret
      · cases commitOk
        · intro hret
          simp [erase, h] at hret
        · intro _
          simp [erase, h, commitThenClose]

/-- Claim C9 witness: a fault-free `save_blob` on the empty store — the
trace is open, commit, close, which is well bracketed and commits before
the close; the remaining operations at the same instantiation. -/
theorem C9_per_call_handle_discipline_witness :
    wellFormedTrace (save [] .U8 "k" 1 true true true).trace = true ∧
    wellFormedTrace (save_blob [] "k" true [1] true true true).trace
      = true ∧
    wellFormedTrace (load [] .U8 "k" true).trace = true ∧
    wellFormedTrace (load_blob [] "k" true true 4 true).trace = true ∧
    wellFormedTrace (nvs_exists [] "k" true).trace = true ∧
    wellFormedTrace (erase [] "k" true true).trace = true ∧
    ((save [] .U8 "k" 1 true true true).ret = .ok →
      commitThenClose (save [] .U8 "k" 1 true true true).trace = true) ∧
    ((save_blob [] "k" true [1] true true true).ret = .ok →
      commitThenClose (save_blob [] "k" true [1] true true true).trace
        = true) ∧
    ((erase [] "k" true true).ret = .ok →
      commitThenClose (erase [] "k" true true).trace = true) :=
  C9_per_call_handle_discipline [] .U8 "k" 1 true true [1] 4 true true true

/-- Claim C10: `save_blob` called with a null data pointer or a zero
length returns `ESP_ERR_INVALID_ARG` with an empty trace (storage is
never opened) and the store unchanged. -/
theorem C10_save_blob_arg_guard (st : Store) (k : Key)
    (dataPresent : Bool) (bytes : List Nat) (openOk setOk commitOk : Bool)
    (h : dataPresent = false ∨ bytes = []) :
    save_blob st k dataPresent bytes openOk setOk commitOk =
      ⟨.invalidArg, st, []⟩ := by
  rcases h with h | h <;> simp [save_blob, h]

/-- Claim C10 witness: a null data pointer with a nonempty byte range,
and a non-null pointer with zero length, both on a one-entry store. -/
theorem C10_save_blob_arg_guard_witness :
    save_blob blobStoreEx "k" false [3] true true true =
      ⟨.invalidArg, blobStoreEx, []⟩ :=
  C10_save_blob_arg_guard blobStoreEx "k" false [3] true true true
    (Or.inl rfl)

end Nvs
